import Mathlib

/-!
Shallow embedding of the openbiodiversity calculator's incremental
indicator-computation and caching pipeline
(`src/utils/indicators.py` and `src/utils/duckdb_queries.py`).

Doubles are modelled as rationals (ℚ); Python exceptions as an
explicit error type threaded through `Except`; the DuckDB database as
an explicit `Store` value passed through and returned by every
state-changing operation; the remote Google Earth Engine backend as an
opaque environment `Env` of oracle functions (the spec declares the
remote backend out of scope, an "opaque capability").
-/

/-- Python exceptions observable in the embedded code paths.
The last two constructors are *modelled from the spec*: the spec's error
taxonomy names dedicated classes `UnsupportedIndicatorTypeError` and
`ProjectNotFoundError`; the source never defines or raises either class
(it raises plain `Exception` / hits `IndexError`), so these constructors
exist only so that statements can compare the spec's expected error
against the error the code actually produces. -/
inductive PyErr where
  /-- raise Exception(msg) -/
  | exception (msg : String)
  /-- dict subscripting with an absent key -/
  | keyError (key : String)
  /-- list subscripting out of range -/
  | indexError
  /-- open() on an unreadable file -/
  | osError (msg : String)
  /-- SQL referencing a table that does not exist -/
  | catalogError (tbl : String)
  /-- Modelled from the spec: the dedicated error class the spec expects
  for an unsupported indicator source type; missing from the source. -/
  | unsupportedIndicatorTypeError
  /-- Modelled from the spec: the dedicated error class the spec expects
  for an unknown project; missing from the source. -/
  | projectNotFoundError
deriving DecidableEq, Repr

/-- One row of the `project` table that the embedded queries touch:
`SELECT geometry FROM project WHERE name = ?`. Geometry is the GeoJSON
text blob stored in the table. -/
structure Project where
  name : String
  geometry : String
deriving DecidableEq, Repr

/-- One row of the `bioindicator` durable table (and of the `_temptable`
staging table, which has the same shape): columns
`(year BIGINT, project_name VARCHAR, value DOUBLE, area DOUBLE, score DOUBLE)`. -/
structure ScoreRecord where
  year : Int
  project_name : String
  value : ℚ
  area : ℚ
  score : ℚ
deriving DecidableEq, Repr

/-- The DuckDB database state visible to the embedded queries: the
`project` table, and the `bioindicator` / `_temptable` tables together
with flags recording whether each table exists in the catalog
(`bioindicator` is only created by `get_or_create_bioindicator_table`;
querying an absent table raises). -/
structure Store where
  projects : List Project
  bioExists : Bool
  bio : List ScoreRecord
  tempExists : Bool
  temp : List ScoreRecord
deriving DecidableEq, Repr

/-- One indicator definition from `indices.yaml`: the keys the code
reads are `name`, `gee_type`, `gee_path`, and the optional `select` and
`bandname`. -/
structure IndexConfig where
  name : String
  gee_type : String
  gee_path : String
  select : Option String
  bandname : Option String
deriving DecidableEq, Repr

/-- Opaque token standing for the `ee.Image` built by `generate_index`:
it records every input the source feeds into the (out-of-scope) Earth
Engine calls — the indicator configuration, the region of interest and
the year whose date range is used. -/
structure Dataset where
  config : IndexConfig
  roi : String
  year : Int
deriving DecidableEq, Repr

/-- Oracle environment for the external collaborators (Earth Engine and
the spatial SQL functions): per the spec these are opaque capabilities.
`reduce` is `dataset.reduceRegion(mean,…).getInfo()` followed by the
optional `bandname` extraction (fallible: a remote call); `area` is
`roi.area().getInfo()`; `centroid` is the `ST_Centroid` SQL; `extractPolygon`
is the `json.loads`/`json.dumps` round-trip picking
`features[0]["geometry"]`; `mkRoi` is `ee.Geometry.Polygon(...)`. -/
structure Env where
  reduce : Dataset → Except PyErr ℚ
  area : String → ℚ
  centroid : String → ℚ × ℚ
  extractPolygon : String → String
  mkRoi : String → String

/-- The `IndexGenerator` instance state used by the pipeline: the subset
of indicator configurations selected at construction (`self.indices`),
as an association list preserving the yaml/dict order. -/
structure Generator where
  indices : List (String × IndexConfig)

/-- ROUND(x, 2) — rounding to two decimal digits, used both by the SQL
`ROUND(…, 2)` and by the pandas `DataFrame.round(2)`. -/
def round2 (q : ℚ) : ℚ := (round (q * 100) : ℤ) / 100

/-- Python's `range(a, b)`: the integers `a, a+1, …, b-1` (empty when
`b ≤ a`). -/
def pyRange (a b : Int) : List Int :=
  (List.range (b - a).toNat).map (fun i : Nat => a + (i : Int))

/-- Python list subscripting `l[i]`: raises IndexError out of range. -/
def pyIndex {α : Type} (l : List α) (i : Nat) : Except PyErr α :=
  match l.get? i with
  | some x => .ok x
  | none => .error .indexError

/-- Python dict subscripting `d[k]`: raises KeyError when absent. -/
def pyLookup (l : List (String × IndexConfig)) (k : String) :
    Except PyErr IndexConfig :=
  match l.find? (fun p => p.1 == k) with
  | some p => .ok p.2
  | none => .error (.keyError k)

/-- Fail-fast left-to-right effectful map, the list/loop evaluation
order of `list(map(f, xs))` and of Python `for` loops collecting
results: the first exception aborts the whole traversal. -/
def mapE {α β : Type} (f : α → Except PyErr β) : List α → Except PyErr (List β)
  | [] => .ok []
  | x :: xs => do
    let y ← f x
    let ys ← mapE f xs
    pure (y :: ys)

/-- duckdb_queries.get_project_geometry: the `fetchall()` row list of
`SELECT geometry FROM project WHERE name = ? LIMIT 1` (each row holds
just the geometry column). -/
def get_project_geometry (s : Store) (project_name : String) : List String :=
  ((s.projects.filter (fun p => p.name == project_name)).map (fun p => p.geometry)).take 1

/-- Number of `bioindicator` rows for one `(year, project_name)` key:
the COUNT(1) that `check_if_project_exists_for_year` computes. -/
def countFor (s : Store) (project_name : String) (year : Int) : Nat :=
  (s.bio.filter (fun r => decide (r.year = year ∧ r.project_name = project_name))).length

/-- duckdb_queries.check_if_project_exists_for_year:
`SELECT COUNT(1) FROM bioindicator WHERE (year = ? AND project_name = ?)`;
raises if the `bioindicator` table does not exist. -/
def check_if_project_exists_for_year (s : Store) (project_name : String)
    (year : Int) : Except PyErr Nat :=
  if s.bioExists then .ok (countFor s project_name year)
  else .error (.catalogError "bioindicator")

/-- duckdb_queries.get_project_scores:
`SELECT * FROM bioindicator WHERE (year >= ? AND year <= ? AND project_name = ?)`.
The SELECT has no ORDER BY, so rows come back in store (insertion)
order; raises if the table does not exist. -/
def get_project_scores (s : Store) (project_name : String)
    (start_year end_year : Int) : Except PyErr (List ScoreRecord) :=
  if s.bioExists then
    .ok (s.bio.filter (fun r =>
      decide (start_year ≤ r.year ∧ r.year ≤ end_year ∧ r.project_name = project_name)))
  else .error (.catalogError "bioindicator")

/-- duckdb_queries.get_or_create_bioindicator_table:
`CREATE TABLE IF NOT EXISTS bioindicator (…)` — a no-op when the table
already exists, otherwise creates it empty. -/
def get_or_create_bioindicator_table (s : Store) : Store :=
  if s.bioExists then s else { s with bioExists := true, bio := [] }

/-- One step of the upsert: `INSERT … ON CONFLICT (year, project_name)
DO UPDATE SET value = excluded.value` for a single staged row — on a key
conflict only the `value` column is updated (the SQL names no other
column), otherwise the row is appended. -/
def upsertRow (bio : List ScoreRecord) (r : ScoreRecord) : List ScoreRecord :=
  if bio.any (fun b => decide (b.year = r.year ∧ b.project_name = r.project_name)) then
    bio.map (fun b =>
      if b.year = r.year ∧ b.project_name = r.project_name then
        { b with value := r.value }
      else b)
  else bio ++ [r]

/-- duckdb_queries.upsert_project_record:
`INSERT INTO bioindicator FROM _temptable ON CONFLICT (year, project_name)
DO UPDATE SET value = excluded.value;` — processes the staged rows in
order; raises if either table is missing from the catalog. -/
def upsert_project_record (s : Store) : Except PyErr Store :=
  if s.tempExists then
    if s.bioExists then .ok { s with bio := s.temp.foldl upsertRow s.bio }
    else .error (.catalogError "bioindicator")
  else .error (.catalogError "_temptable")

/-- One row of the pandas dataframe built by
`generate_composite_index_df` — the columns the downstream SQL actually
reads (`year`, `project_name`, `value`, `area`) plus the `metric` name;
the `centroid`/`geojson` display strings are set but never read by any
embedded query and are omitted. -/
structure IndexRow where
  metric : String
  year : Int
  project_name : String
  value : ℚ
  area : ℚ
deriving DecidableEq, Repr

/-- Grouping key of the staging SQL: `GROUP BY year, project_name, area`. -/
abbrev GKey := Int × String × ℚ

/-- Distinct grouping keys in order of first occurrence (the GROUP BY
produces one output row per distinct key; its order is unspecified by
SQL, modelled as first-occurrence order). -/
def firstKeys (l : List GKey) : List GKey :=
  match l with
  | [] => []
  | k :: ks => k :: firstKeys (ks.filter (fun k2 => decide (k2 ≠ k)))
termination_by l.length
decreasing_by
  simp only [List.length_cons]
  exact Nat.lt_succ_of_le (List.length_filter_le _ ks)

/-- Stable insertion into a name-sorted key list (ascending by
`project_name`, keys with equal names keep their relative order). -/
def insertByName (x : GKey) : List GKey → List GKey
  | [] => [x]
  | y :: ys => if x.2.1 < y.2.1 then x :: y :: ys else y :: insertByName x ys

/-- Stable sort by `project_name`: the staging SQL's `ORDER BY
project_name` (ties — all rows of one batch share the project name —
are left in grouping order, which SQL leaves unspecified). -/
def isortByName (l : List GKey) : List GKey :=
  l.foldl (fun acc x => insertByName x acc) []

/-- Aggregated staging row for one grouping key:
`ROUND(AVG(value), 2) AS value` over the group's rows and
`ROUND((value * area), 2) AS score` on top of it. -/
def groupRecord (df : List IndexRow) (k : GKey) : ScoreRecord :=
  let vs := (df.filter (fun r =>
    decide (r.year = k.1 ∧ r.project_name = k.2.1 ∧ r.area = k.2.2))).map (fun r => r.value)
  let v := round2 (vs.sum / (vs.length : ℚ))
  { year := k.1, project_name := k.2.1, value := v, area := k.2.2,
    score := round2 (v * k.2.2) }

/-- Result set of the staging SELECT:
`SELECT *, ROUND((value * area), 2) AS score FROM (SELECT year,
project_name, ROUND(AVG(value), 2) AS value, area FROM df GROUP BY year,
project_name, area ORDER BY project_name)`. -/
def scoreTable (df : List IndexRow) : List ScoreRecord :=
  (isortByName (firstKeys (df.map (fun r => (r.year, r.project_name, r.area))))).map
    (groupRecord df)

/-- duckdb_queries.write_score_to_temptable:
`CREATE OR REPLACE TABLE _temptable AS …` — unconditionally replaces the
staging table with the aggregated score table. -/
def write_score_to_temptable (s : Store) (df : List IndexRow) : Store :=
  { s with tempExists := true, temp := scoreTable df }

/-- IndexGenerator.generate_index: dispatch on the `gee_type` tag; the
four supported tags build an Earth Engine dataset (opaque, captured as a
`Dataset` token); any other tag leaves `dataset = None`, after which
`if not dataset: raise Exception("Failed to generate dataset.")` fires. -/
def generate_index (index_config : IndexConfig) (roi : String) (year : Int) :
    Except PyErr Dataset :=
  let dataset : Option Dataset :=
    match index_config.gee_type with
    | "image" => some { config := index_config, roi := roi, year := year }
    | "image_collection" => some { config := index_config, roi := roi, year := year }
    | "feature_collection" => some { config := index_config, roi := roi, year := year }
    | "algebraic" => some { config := index_config, roi := roi, year := year }
    | _ => none
  match dataset with
  | none => .error (.exception "Failed to generate dataset.")
  | some d => .ok d

/-- IndexGenerator.zonal_mean_index: look up the indicator
configuration (`self.indices[index_key]`), generate the dataset, then
reduce it to a scalar zonal mean through the remote backend. The second
component of the result is the trace of remote reductions performed
(one per successful dataset generation), used to state "how many remote
evaluations ran". -/
def zonal_mean_index (env : Env) (gen : Generator) (roi : String)
    (index_key : String) (year : Int) : Except PyErr (ℚ × List Dataset) := do
  let index_config ← pyLookup gen.indices index_key
  let dataset ← generate_index index_config roi year
  let out ← env.reduce dataset
  pure (out, [dataset])

/-- IndexGenerator.generate_composite_index_df: build one dataframe row
per requested index for the given year — `value` from the zonal mean,
`area` from `self.roi.area().getInfo()`, `project_name`/`centroid`
placeholders filled in later by the caller. Returns the rows plus the
remote-evaluation trace. -/
def generate_composite_index_df (env : Env) (gen : Generator) (roi : String)
    (year : Int) (indices : List String) :
    Except PyErr (List IndexRow × List Dataset) := do
  let vals ← mapE (fun k => zonal_mean_index env gen roi k year) indices
  let area := env.area roi
  let rows := (indices.zip (vals.map (fun v => v.1))).map (fun kv =>
    { metric := kv.1, year := year, project_name := "", value := kv.2, area := area })
  pure (rows, (vals.map (fun v => v.2)).flatten)

/-- duckdb_queries.get_project_centroid: re-fetches the geometry,
subscripts row 0 / column 0 (IndexError when the project is absent),
then computes the centroid through the spatial SQL. -/
def get_project_centroid (env : Env) (s : Store) (project_name : String) :
    Except PyErr (ℚ × ℚ) := do
  let _geom := get_project_geometry s project_name
  let g ← pyIndex _geom 0
  pure (env.centroid (env.extractPolygon g))

/-- IndexGenerator._calculate_yearly_index: resolve the project's
geometry and centroid (the centroid lookup subscripts the geometry row
list and raises IndexError when the project has no geometry row), build
the region of interest, generate one composite dataframe per year,
concatenate, fill the `project_name` column and round every numeric
column to 2 decimals (`df_concat.round(2)` — note this rounds the
per-indicator values *before* any averaging). -/
def _calculate_yearly_index (env : Env) (gen : Generator) (s : Store)
    (years : List Int) (project_name : String) :
    Except PyErr (List IndexRow × List Dataset) := do
  let project_geometry := get_project_geometry s project_name
  let _project_centroid ← get_project_centroid env s project_name
  let geom0 ← pyIndex project_geometry 0
  let roi := env.mkRoi (env.extractPolygon geom0)
  let dfs ← mapE (fun year =>
    generate_composite_index_df env gen roi year (gen.indices.map (fun p => p.1))) years
  let df_concat := (dfs.map (fun d => d.1)).flatten
  let rows := df_concat.map (fun r =>
    { r with project_name := project_name, value := round2 r.value, area := round2 r.area })
  pure (rows, (dfs.map (fun d => d.2)).flatten)

/-- Observable outcome of reading the indicator-configuration source:
the file is unreadable (open() raises an OSError), readable but not
valid YAML (yaml.safe_load raises yaml.YAMLError), or well-formed with
some content. This models the external file system and yaml parser. -/
inductive YamlSource where
  | unreadable (err : String)
  | malformed (err : String)
  | wellFormed (content : List (String × IndexConfig))

/-- IndexGenerator._load_indices: `open` + `yaml.safe_load` guarded by
`except yaml.YAMLError as e: logging.error(e); return None`. The second
component is the log output: on malformed YAML the function logs the
error and returns `None`; an unreadable file raises the OS error
uncaught (the `with open(...)` is outside the try block's except
clause scope for OSError). -/
def _load_indices (src : YamlSource) :
    Except PyErr (Option (List (String × IndexConfig)) × List String) :=
  match src with
  | .unreadable e => .error (.osError e)
  | .malformed e => .ok (none, ["ERROR:" ++ e])
  | .wellFormed content => .ok (some content, [])

/-- The year-gap loop of calculate_biodiversity_score:
`for year in range(start_year, end_year): … if not row_exists:
years.append(year)` — collects, in ascending order, the examined years
whose COUNT is 0, failing if the existence query fails. -/
def missingYearsLoop (s : Store) (project_name : String) :
    List Int → Except PyErr (List Int)
  | [] => .ok []
  | y :: ys => do
    let row_exists ← check_if_project_exists_for_year s project_name y
    let rest ← missingYearsLoop s project_name ys
    pure (if row_exists = 0 then y :: rest else rest)

/-- IndexGenerator.calculate_biodiversity_score: find the years of
`range(start_year, end_year)` with no `bioindicator` row, and when any
are missing evaluate exactly those years, stage the aggregated scores
(`write_score_to_temptable`), ensure the durable table exists, and
upsert; finally read back `get_project_scores(project_name, start_year,
end_year)`. Returns the final store, the rows read back, and the trace
of remote evaluations performed. -/
def calculate_biodiversity_score (env : Env) (gen : Generator) (s : Store)
    (start_year end_year : Int) (project_name : String) :
    Except PyErr (Store × List ScoreRecord × List Dataset) := do
  let years ← missingYearsLoop s project_name (pyRange start_year end_year)
  let step ←
    if years.length > 0 then do
      let dftr ← _calculate_yearly_index env gen s years project_name
      let s1 := write_score_to_temptable s dftr.1
      let s2 := get_or_create_bioindicator_table s1
      let s3 ← upsert_project_record s2
      pure (s3, dftr.2)
    else pure (s, ([] : List Dataset))
  let scores ← get_project_scores step.1 project_name start_year end_year
  pure (step.1, scores, step.2)

/-- Environment whose remote calls are total and trivial: every zonal
reduction returns 0, every region has planar area 1000. -/
def trivialEnv : Env :=
  { reduce := fun _ => .ok 0, area := fun _ => 1000,
    centroid := fun _ => (0, 0), extractPolygon := fun g => g,
    mkRoi := fun g => g }

/-- Indicator configuration of a supported raster source named `nm`. -/
def cfgOf (nm : String) : IndexConfig :=
  { name := nm, gee_type := "image", gee_path := "path/" ++ nm,
    select := none, bandname := none }

/-- Generator selecting a single indicator `i1`. -/
def gen1i : Generator := { indices := [("i1", cfgOf "i1")] }

/-- Generator selecting three indicators `i1`, `i2`, `i3`. -/
def gen3i : Generator :=
  { indices := [("i1", cfgOf "i1"), ("i2", cfgOf "i2"), ("i3", cfgOf "i3")] }

/-- Environment delivering zonal values `v1`/`v2`/`v3` for indicators
`i1`/`i2`/`i3` over a region of planar area 1000. -/
def envV (v1 v2 v3 : ℚ) : Env :=
  { reduce := fun d =>
      if d.config.name = "i1" then .ok v1
      else if d.config.name = "i2" then .ok v2 else .ok v3,
    area := fun _ => 1000, centroid := fun _ => (0, 0),
    extractPolygon := fun g => g, mkRoi := fun g => g }

/-- Environment whose remote reduction fails for any dataset of year
2019 and returns 1 otherwise. -/
def failing2019Env : Env :=
  { reduce := fun d =>
      if d.year = 2019 then .error (.exception "eval failed") else .ok 1,
    area := fun _ => 1000, centroid := fun _ => (0, 0),
    extractPolygon := fun g => g, mkRoi := fun g => g }

/-- Indicator configuration with the unsupported source type `bogus`. -/
def bogusCfg : IndexConfig :=
  { name := "bogus_ind", gee_type := "bogus", gee_path := "path/bogus",
    select := none, bandname := none }

/-- Generator whose single indicator has the unsupported type tag. -/
def genBogus : Generator := { indices := [("bogus_ind", bogusCfg)] }

/-- Store holding one project `p` with a geometry, an existing empty
`bioindicator` table and no staging table. -/
def sP : Store :=
  { projects := [{ name := "p", geometry := "geojson" }],
    bioExists := true, bio := [], tempExists := false, temp := [] }

/-- Store with an existing `bioindicator` table but no projects at all. -/
def sEmpty : Store :=
  { projects := [], bioExists := true, bio := [], tempExists := false, temp := [] }

/-- Cached score row for project `p`, year 2018. -/
def rec2018 : ScoreRecord :=
  { year := 2018, project_name := "p", value := 1, area := 1000, score := 1000 }

/-- Cached score row for project `p`, year 2019. -/
def rec2019 : ScoreRecord :=
  { year := 2019, project_name := "p", value := 1, area := 1000, score := 1000 }

/-- Store caching years 2018 and 2019 for project `p` (2018 inserted
first). -/
def sCached : Store :=
  { projects := [{ name := "p", geometry := "geojson" }],
    bioExists := true, bio := [rec2018, rec2019], tempExists := false, temp := [] }

/-- Store caching years 2019 and 2018 for project `p`, with the year
2019 row inserted before the 2018 row. -/
def sCachedRev : Store :=
  { projects := [{ name := "p", geometry := "geojson" }],
    bioExists := true, bio := [rec2019, rec2018], tempExists := false, temp := [] }

/-- Staged row used by the upsert witness. -/
def recStaged : ScoreRecord :=
  { year := 2021, project_name := "p", value := 3, area := 4, score := 12 }

/-- Store with an empty durable table and `recStaged` in the staging
table. -/
def sStaged : Store :=
  { projects := [], bioExists := true, bio := [], tempExists := true,
    temp := [recStaged] }

/-- Durable row for `(2020, p)` before an upsert conflict. -/
def oldRec : ScoreRecord :=
  { year := 2020, project_name := "p", value := 1, area := 2, score := 2 }

/-- Staged row for `(2020, p)` carrying freshly computed value, area and
score. -/
def newRec : ScoreRecord :=
  { year := 2020, project_name := "p", value := 10, area := 1000, score := 10000 }

/-- Store whose durable table already holds `oldRec` while the staging
table holds `newRec` for the same `(year, project_name)` key. -/
def sConflict : Store :=
  { projects := [], bioExists := true, bio := [oldRec], tempExists := true,
    temp := [newRec] }

/-- Score row the pipeline produces for year 2020 of project `p` when
the three indicators evaluate to `v1`, `v2`, `v3` over a region of
planar area 1000: the stored `value` is the 2-decimal rounding of the
mean of the *already rounded* per-indicator values (the dataframe is
rounded before the SQL AVG), and `score` is the 2-decimal rounding of
`value * area`. -/
def aggRecord (v1 v2 v3 : ℚ) : ScoreRecord :=
  { year := 2020, project_name := "p",
    value := round2 ((round2 v1 + round2 v2 + round2 v3) / 3),
    area := 1000,
    score := round2 (round2 ((round2 v1 + round2 v2 + round2 v3) / 3) * 1000) }

/-- Store state after the pipeline persists `aggRecord v1 v2 v3`. -/
def aggStore (v1 v2 v3 : ℚ) : Store :=
  { projects := [{ name := "p", geometry := "geojson" }],
    bioExists := true, bio := [aggRecord v1 v2 v3], tempExists := true,
    temp := [aggRecord v1 v2 v3] }

/-- Remote-evaluation trace of that pipeline run: one dataset per
indicator, all for year 2020. -/
def aggTrace : List Dataset :=
  [{ config := cfgOf "i1", roi := "geojson", year := 2020 },
   { config := cfgOf "i2", roi := "geojson", year := 2020 },
   { config := cfgOf "i3", roi := "geojson", year := 2020 }]

/-- Score row produced for year 2018 of project `p` by a run whose
single indicator evaluates to 0 over a region of area 1000. -/
def wRec : ScoreRecord :=
  { year := 2018, project_name := "p", value := 0, area := 1000, score := 0 }

/-- Store state after that run persists `wRec`. -/
def wStore : Store :=
  { projects := [{ name := "p", geometry := "geojson" }],
    bioExists := true, bio := [wRec], tempExists := true, temp := [wRec] }

/-- The single remote dataset that run evaluates. -/
def wD : Dataset := { config := cfgOf "i1", roi := "geojson", year := 2018 }

@[simp] theorem ebind_ok {α β : Type} (a : α) (f : α → Except PyErr β) :
    (Except.ok a >>= f) = f a := rfl

@[simp] theorem ebind_err {α β : Type} (e : PyErr) (f : α → Except PyErr β) :
    ((Except.error e : Except PyErr α) >>= f) = Except.error e := rfl

@[simp] theorem epure_eq_ok {α : Type} (a : α) :
    (pure a : Except PyErr α) = Except.ok a := rfl

theorem mapE_ok_cons {α β : Type} {f : α → Except PyErr β} {x : α} {xs : List α}
    {ys : List β} (h : mapE f (x :: xs) = .ok ys) :
    ∃ y ys', f x = .ok y ∧ mapE f xs = .ok ys' ∧ ys = y :: ys' := by
  cases hx : f x with
  | error e => simp [mapE, hx] at h
  | ok y =>
    cases hxs : mapE f xs with
    | error e => simp [mapE, hx, hxs] at h
    | ok ys' =>
      refine ⟨y, ys', rfl, rfl, ?_⟩
      simp [mapE, hx, hxs] at h
      exact h.symm

theorem missingYearsLoop_char (s : Store) (p : String) (l : List Int)
    (hbio : s.bioExists = true) :
    missingYearsLoop s p l = .ok (l.filter (fun y => decide (countFor s p y = 0))) := by
  induction l with
  | nil => rfl
  | cons y ys ih =>
    simp only [missingYearsLoop, check_if_project_exists_for_year, hbio, if_true,
      ebind_ok, ih, List.filter_cons]
    by_cases h0 : countFor s p y = 0 <;> simp [h0]

theorem missingYearsLoop_ne_nil_bioExists {s : Store} {p : String} {l : List Int}
    {ys : List Int} (h : missingYearsLoop s p l = .ok ys) (hne : ys ≠ []) :
    s.bioExists = true := by
  cases l with
  | nil =>
    simp only [missingYearsLoop] at h
    cases h
    exact absurd rfl hne
  | cons y l' =>
    by_cases hbio : s.bioExists
    · exact hbio
    · simp [missingYearsLoop, check_if_project_exists_for_year, hbio] at h

theorem mem_pyRange {a b y : Int} : y ∈ pyRange a b ↔ a ≤ y ∧ y < b := by
  unfold pyRange
  rw [List.mem_map]
  constructor
  · rintro ⟨i, hi, rfl⟩
    rw [List.mem_range] at hi
    omega
  · intro h
    refine ⟨(y - a).toNat, ?_, ?_⟩
    · rw [List.mem_range]
      omega
    · omega

theorem pyRange_nodup (a b : Int) : (pyRange a b).Nodup := by
  unfold pyRange
  apply List.Nodup.map
  · intro i j h
    dsimp only at h
    omega
  · exact List.nodup_range _

@[simp] theorem emap_ok {α β : Type} (g : α → β) (a : α) :
    (g <$> (Except.ok a : Except PyErr α)) = Except.ok (g a) := rfl

@[simp] theorem emap_err {α β : Type} (g : α → β) (e : PyErr) :
    (g <$> (Except.error e : Except PyErr α)) = Except.error e := rfl

theorem emap_eq_bind {α β : Type} (g : α → β) (x : Except PyErr α) :
    g <$> x = x >>= fun a => Except.ok (g a) := by
  cases x <;> rfl

theorem run_skip (env : Env) (gen : Generator) (s : Store) (a b : Int) (p : String)
    (h : missingYearsLoop s p (pyRange a b) = .ok []) :
    calculate_biodiversity_score env gen s a b p =
      (get_project_scores s p a b) >>= fun scores => .ok (s, scores, []) := by
  unfold calculate_biodiversity_score
  rw [h]
  simp [emap_eq_bind]

theorem run_ok_inv {env : Env} {gen : Generator} {s : Store} {a b : Int} {p : String}
    {s' : Store} {scores : List ScoreRecord} {tr : List Dataset}
    (h : calculate_biodiversity_score env gen s a b p = .ok (s', scores, tr)) :
    ∃ years, missingYearsLoop s p (pyRange a b) = .ok years ∧
      get_project_scores s' p a b = .ok scores ∧
      ((years = [] ∧ s' = s ∧ tr = []) ∨
       (years ≠ [] ∧ ∃ df,
         _calculate_yearly_index env gen s years p = .ok (df, tr) ∧
         upsert_project_record
           (get_or_create_bioindicator_table (write_score_to_temptable s df)) = .ok s')) := by
  unfold calculate_biodiversity_score at h
  cases hml : missingYearsLoop s p (pyRange a b) with
  | error e => rw [hml] at h; simp at h
  | ok years =>
    rw [hml] at h
    refine ⟨years, rfl, ?_⟩
    simp only [ebind_ok] at h
    cases years with
    | nil =>
      rw [if_neg (by simp)] at h
      simp only [epure_eq_ok, ebind_ok] at h
      cases hgs : get_project_scores s p a b with
      | error e => rw [hgs] at h; simp at h
      | ok sc =>
        rw [hgs] at h
        simp only [ebind_ok, Except.ok.injEq, Prod.mk.injEq] at h
        obtain ⟨h1, h2, h3⟩ := h
        subst h1; subst h2; subst h3
        exact ⟨hgs, Or.inl ⟨rfl, rfl, rfl⟩⟩
    | cons y ys =>
      rw [if_pos (by simp)] at h
      cases hdf : _calculate_yearly_index env gen s (y :: ys) p with
      | error e => rw [hdf] at h; simp at h
      | ok dftr =>
        rw [hdf] at h
        simp only [ebind_ok] at h
        cases hup : upsert_project_record
            (get_or_create_bioindicator_table (write_score_to_temptable s dftr.1)) with
        | error e => rw [hup] at h; simp at h
        | ok s3 =>
          rw [hup] at h
          simp only [ebind_ok, epure_eq_ok] at h
          cases hgs : get_project_scores s3 p a b with
          | error e => rw [hgs] at h; simp at h
          | ok sc =>
            rw [hgs] at h
            simp only [ebind_ok, Except.ok.injEq, Prod.mk.injEq] at h
            obtain ⟨h1, h2, h3⟩ := h
            subst h1; subst h2; subst h3
            exact ⟨hgs, Or.inr ⟨List.cons_ne_nil y ys, dftr.1, by rw [← hdf],
              hup⟩⟩

/-- C7: the claim says the catalog load fails with ConfigError and never
logs-and-returns an empty/partial/null mapping. The code instead
*catches* yaml parse errors, logs them, and returns None: this theorem
is the amended behavior — on a malformed source `_load_indices` returns
normally with a null mapping and a log entry; on an unreadable source
the raw OS error (not a ConfigError) propagates; on a well-formed source
the parsed mapping is returned. -/
theorem load_indices_behavior :
    (∀ e, _load_indices (.malformed e) = .ok (none, ["ERROR:" ++ e])) ∧
    (∀ e, _load_indices (.unreadable e) = .error (.osError e)) ∧
    (∀ c, _load_indices (.wellFormed c) = .ok (some c, [])) :=
  ⟨fun _ => rfl, fun _ => rfl, fun _ => rfl⟩

/-- C7 counterexample: on a malformed indicator-configuration source the
load does *not* fail — it returns successfully with a null indicator
mapping after logging the parse error, exactly the behavior the claim
rules out. -/
theorem load_indices_malformed_cex :
    _load_indices (.malformed "mapping values are not allowed here") =
      .ok (none, ["ERROR:" ++ "mapping values are not allowed here"]) := rfl

/-- C8: amended behavior for an unsupported indicator source type — any
`gee_type` tag other than the four supported ones makes `generate_index`
fail with the *generic* `Exception("Failed to generate dataset.")` (the
source defines no dedicated UnsupportedIndicatorTypeError class), and a
pipeline whose indicator carries such a tag fails as a whole with that
same error before any store write (the error result carries no store). -/
theorem unsupported_type_behavior :
    (∀ cfg : IndexConfig, ∀ roi : String, ∀ year : Int,
      cfg.gee_type ≠ "image" → cfg.gee_type ≠ "image_collection" →
      cfg.gee_type ≠ "feature_collection" → cfg.gee_type ≠ "algebraic" →
      generate_index cfg roi year =
        .error (.exception "Failed to generate dataset.")) ∧
    calculate_biodiversity_score trivialEnv genBogus sP 2020 2021 "p" =
      .error (.exception "Failed to generate dataset.") := by
  constructor
  · intro cfg roi year h1 h2 h3 h4
    unfold generate_index
    split
    all_goals first
      | rfl
      | (rename_i hd
         first
          | exact absurd hd h1
          | exact absurd hd h2
          | exact absurd hd h3
          | exact absurd hd h4)
  · rfl

/-- C8 witness: the first part of `unsupported_type_behavior` applied to
the concrete `bogus`-typed configuration. -/
theorem unsupported_type_behavior_witness :
    generate_index bogusCfg "geojson" 2020 =
      .error (.exception "Failed to generate dataset.") :=
  unsupported_type_behavior.1 bogusCfg "geojson" 2020
    (by decide) (by decide) (by decide) (by decide)

/-- C8 counterexample: evaluating the `bogus`-typed indicator fails with
the generic Exception, which is not the dedicated
UnsupportedIndicatorTypeError the claim names. -/
theorem unsupported_type_generic_error_cex :
    generate_index bogusCfg "geojson" 2020 =
      .error (.exception "Failed to generate dataset.") ∧
    PyErr.exception "Failed to generate dataset." ≠
      PyErr.unsupportedIndicatorTypeError := ⟨rfl, by decide⟩

/-- C10: when no examined year is missing a record (including the
degenerate empty range), `calculate_biodiversity_score` performs no
remote evaluation (empty trace), leaves the store exactly as it was
(the same `s` is returned, so no table is created, replaced or
modified), and returns just the result of the read query. -/
theorem no_missing_noop (env : Env) (gen : Generator) (s : Store) (a b : Int)
    (p : String) (h : missingYearsLoop s p (pyRange a b) = .ok []) :
    calculate_biodiversity_score env gen s a b p =
      (get_project_scores s p a b) >>= fun scores => .ok (s, scores, []) :=
  run_skip env gen s a b p h

/-- C10 witness: a degenerate range (start ≥ end) examines no year, so
the call is a pure read on an untouched store. -/
theorem no_missing_noop_witness :
    calculate_biodiversity_score trivialEnv gen1i sP 2020 2018 "p" =
      ((get_project_scores sP "p" 2020 2018) >>= fun scores => .ok (sP, scores, [])) :=
  no_missing_noop trivialEnv gen1i sP 2020 2018 "p" rfl

/-- C2: batch atomicity — when the yearly evaluation of the missing
years fails with any error, the whole `calculate_biodiversity_score`
call fails with that same error: the staging write, table creation and
upsert (which in the source only run after `_calculate_yearly_index`
returns) are never reached, so no record of the batch is persisted and
the error propagates to the caller. -/
theorem batch_atomicity (env : Env) (gen : Generator) (s : Store) (a b : Int)
    (p : String) (years : List Int) (e : PyErr)
    (hy : missingYearsLoop s p (pyRange a b) = .ok years)
    (hne : 0 < years.length)
    (hfail : _calculate_yearly_index env gen s years p = .error e) :
    calculate_biodiversity_score env gen s a b p = .error e := by
  unfold calculate_biodiversity_score
  rw [hy]
  simp only [ebind_ok]
  rw [if_pos hne, hfail]
  rfl

/-- C2 witness: requesting years {2018, 2019} where evaluation of 2019
fails — the whole call errors, and in particular the successfully
evaluated year 2018 is not persisted (no store is produced at all). -/
theorem batch_atomicity_witness :
    calculate_biodiversity_score failing2019Env gen1i sP 2018 2020 "p" =
      .error (.exception "eval failed") :=
  batch_atomicity failing2019Env gen1i sP 2018 2020 "p" [2018, 2019]
    (.exception "eval failed") rfl (by decide) rfl

theorem filter_upsert_map (bio : List ScoreRecord) (r : ScoreRecord) :
    ((bio.map (fun b =>
        if b.year = r.year ∧ b.project_name = r.project_name then
          { b with value := r.value }
        else b)).filter
      (fun b => decide (b.year = r.year ∧ b.project_name = r.project_name))) =
    (bio.filter
      (fun b => decide (b.year = r.year ∧ b.project_name = r.project_name))).map
      (fun b => { b with value := r.value }) := by
  induction bio with
  | nil => rfl
  | cons b bs ih =>
    by_cases hb : b.year = r.year ∧ b.project_name = r.project_name
    · simp only [List.map_cons, List.filter_cons, if_pos hb]
      dsimp only
      rw [decide_eq_true hb, if_pos rfl, if_pos rfl]
      simp only [List.map_cons]
      exact congrArg (List.cons _) ih
    · simp only [List.map_cons, List.filter_cons, if_neg hb]
      rw [decide_eq_false hb, if_neg (by simp), if_neg (by simp)]
      exact ih

/-- C1: amended upsert semantics. With a single staged row `r`: if no
durable row has `r`'s `(year, project_name)` key, the row is inserted;
if exactly one durable row `old` has the key, the upsert succeeds
without inserting (row count unchanged — no duplicate), the key's single
row becomes `old` with *only* `value` replaced (its `area` and `score`
columns keep their previous contents, because the SQL's DO UPDATE sets
only `value`), and a subsequent range read for that key returns exactly
that one row. -/
theorem upsert_semantics (s : Store) (r : ScoreRecord)
    (hT : s.tempExists = true) (hB : s.bioExists = true) (htemp : s.temp = [r]) :
    ((s.bio.filter (fun b =>
        decide (b.year = r.year ∧ b.project_name = r.project_name)) = []) →
      upsert_project_record s = .ok { s with bio := s.bio ++ [r] }) ∧
    (∀ old : ScoreRecord,
      s.bio.filter (fun b =>
        decide (b.year = r.year ∧ b.project_name = r.project_name)) = [old] →
      ∃ s', upsert_project_record s = .ok s' ∧
        s'.bio.length = s.bio.length ∧
        s'.bio.filter (fun b =>
          decide (b.year = r.year ∧ b.project_name = r.project_name)) =
          [{ old with value := r.value }] ∧
        get_project_scores s' r.project_name r.year r.year =
          .ok [{ old with value := r.value }]) := by
  have hrun : upsert_project_record s =
      .ok { s with bio := upsertRow s.bio r } := by
    unfold upsert_project_record
    rw [hT, hB, if_pos rfl, if_pos rfl, htemp]
    rfl
  constructor
  · intro habs
    have hany : s.bio.any (fun b =>
        decide (b.year = r.year ∧ b.project_name = r.project_name)) = false := by
      rw [List.any_eq_false]
      intro x hx
      have := List.filter_eq_nil_iff.mp habs x hx
      simpa using this
    rw [hrun]
    unfold upsertRow
    rw [hany]
    rfl
  · intro old hold
    have hmem : old ∈ s.bio ∧
        (decide (old.year = r.year ∧ old.project_name = r.project_name)) = true := by
      have : old ∈ s.bio.filter (fun b =>
          decide (b.year = r.year ∧ b.project_name = r.project_name)) := by
        rw [hold]; exact List.mem_singleton.mpr rfl
      exact ⟨(List.mem_filter.mp this).1, (List.mem_filter.mp this).2⟩
    have hany : s.bio.any (fun b =>
        decide (b.year = r.year ∧ b.project_name = r.project_name)) = true :=
      List.any_eq_true.mpr ⟨old, hmem.1, hmem.2⟩
    have hmap : upsertRow s.bio r = s.bio.map (fun b =>
        if b.year = r.year ∧ b.project_name = r.project_name then
          { b with value := r.value }
        else b) := by
      unfold upsertRow
      rw [hany, if_pos rfl]
    refine ⟨_, hrun, ?_, ?_, ?_⟩
    · simp [hmap]
    · show (upsertRow s.bio r).filter _ = _
      rw [hmap, filter_upsert_map, hold]
      rfl
    · show get_project_scores { s with bio := upsertRow s.bio r } _ _ _ = _
      unfold get_project_scores
      rw [if_pos (by simpa using hB)]
      have hcg : (upsertRow s.bio r).filter (fun b =>
          decide (r.year ≤ b.year ∧ b.year ≤ r.year ∧ b.project_name = r.project_name)) =
          (upsertRow s.bio r).filter (fun b =>
          decide (b.year = r.year ∧ b.project_name = r.project_name)) := by
        refine List.filter_congr ?_
        intro x _
        have : (r.year ≤ x.year ∧ x.year ≤ r.year ∧ x.project_name = r.project_name) ↔
            (x.year = r.year ∧ x.project_name = r.project_name) := by
          constructor
          · rintro ⟨u, v, w⟩; exact ⟨le_antisymm v u, w⟩
          · rintro ⟨u, v⟩; exact ⟨le_of_eq u.symm, le_of_eq u, v⟩
        simp [this]
      rw [hcg, hmap, filter_upsert_map, hold]
      rfl

/-- C1 witness: inserting a staged row whose key is absent appends it to
the durable table. -/
theorem upsert_semantics_witness :
    upsert_project_record sStaged = .ok { sStaged with bio := sStaged.bio ++ [recStaged] } :=
  (upsert_semantics sStaged recStaged rfl rfl rfl).1 rfl

/-- C1 counterexample: upserting the staged row (value 10, area 1000,
score 10000) onto the existing row (value 1, area 2, score 2) for the
same key updates only `value`: the resulting durable row is
`(2020, p, 10, 2, 2)`, not the fully updated `(2020, p, 10, 1000, 10000)`
the claim requires. -/
theorem upsert_updates_only_value_cex :
    upsert_project_record sConflict =
      .ok { sConflict with
        bio := [{ year := 2020, project_name := "p", value := 10, area := 2,
                  score := 2 }] } ∧
    ({ year := 2020, project_name := "p", value := 10, area := 2, score := 2 } :
        ScoreRecord) ≠
      { year := 2020, project_name := "p", value := 10, area := 1000,
        score := 10000 } := by
  constructor
  · rfl
  · intro h
    have := congrArg ScoreRecord.area h
    simp at this

/-- C5: amended bound conventions. The two bound conventions in
`calculate_biodiversity_score` do *not* agree: the existence-check loop
examines `pyRange start end` = the end-exclusive interval `[start, end)`
(first conjunct), `end` itself is never examined (second conjunct),
while the final read-back `get_project_scores` returns rows of the
end-inclusive interval `[start, end]` (third conjunct). -/
theorem bound_conventions (a b y : Int) (s : Store) (p : String)
    (r : ScoreRecord) (scores : List ScoreRecord) :
    (y ∈ pyRange a b ↔ a ≤ y ∧ y < b) ∧
    (b ∉ pyRange a b) ∧
    (get_project_scores s p a b = .ok scores →
      (r ∈ scores ↔ r ∈ s.bio ∧ a ≤ r.year ∧ r.year ≤ b ∧ r.project_name = p)) := by
  refine ⟨mem_pyRange, ?_, ?_⟩
  · rw [mem_pyRange]
    omega
  · intro h
    unfold get_project_scores at h
    cases hbe : s.bioExists with
    | false => rw [hbe] at h; cases h
    | true =>
      rw [hbe, if_pos rfl] at h
      cases h
      simp [List.mem_filter]

/-- C5 witness: at `(start, end) = (2018, 2019)` the examined set is
exactly `{2018}` (2019 is excluded), while the read-back on the cached
store returns the rows of both 2018 and 2019. -/
theorem bound_conventions_witness :
    ((2019 : ℤ) ∈ pyRange 2018 2019 ↔ (2018:ℤ) ≤ 2019 ∧ (2019:ℤ) < 2019) ∧
    ((2019 : ℤ) ∉ pyRange 2018 2019) ∧
    (rec2019 ∈ [rec2018, rec2019] ↔ rec2019 ∈ sCached.bio ∧
      (2018:ℤ) ≤ rec2019.year ∧ rec2019.year ≤ 2019 ∧
      rec2019.project_name = "p") := by
  obtain ⟨h1, h2, h3⟩ :=
    bound_conventions 2018 2019 2019 sCached "p" rec2019 [rec2018, rec2019]
  exact ⟨h1, h2, h3 rfl⟩

/-- C5 counterexample: with years 2018 and 2019 cached,
`calculate_biodiversity_score(p, 2018, 2019)` examines only `{2018}`
(end-exclusive) yet reads back the 2019 row as well (end-inclusive), so
a single uniform bound convention — as the claim asserts — does not
hold: the examined set differs from the read-back set. -/
theorem bound_convention_cex :
    pyRange 2018 2019 = [2018] ∧
    calculate_biodiversity_score trivialEnv gen1i sCached 2018 2019 "p" =
      .ok (sCached, [rec2018, rec2019], []) ∧
    rec2019 ∈ [rec2018, rec2019] ∧
    rec2019.year ∉ pyRange 2018 2019 := by
  refine ⟨by decide, rfl, by simp, by decide⟩

/-- C6: amended read-back contract — on success the returned rows are
exactly the durable rows of the *inclusive* year range for the project,
in store order (the read has no ORDER BY and applies no sorting). -/
theorem readback_is_range_filter (env : Env) (gen : Generator) (s : Store)
    (a b : Int) (p : String) (s' : Store) (scores : List ScoreRecord)
    (tr : List Dataset)
    (h : calculate_biodiversity_score env gen s a b p = .ok (s', scores, tr)) :
    scores = s'.bio.filter (fun r =>
      decide (a ≤ r.year ∧ r.year ≤ b ∧ r.project_name = p)) := by
  obtain ⟨years, -, hgs, -⟩ := run_ok_inv h
  unfold get_project_scores at hgs
  cases hbe : s'.bioExists with
  | false => rw [hbe] at hgs; cases hgs
  | true =>
    rw [hbe, if_pos rfl] at hgs
    cases hgs
    rfl

/-- C6 witness: the amended read-back contract at a concrete successful
call on the reverse-ordered cached store. -/
theorem readback_is_range_filter_witness :
    [rec2019, rec2018] = sCachedRev.bio.filter (fun r =>
      decide ((2018:ℤ) ≤ r.year ∧ r.year ≤ 2020 ∧ r.project_name = "p")) :=
  readback_is_range_filter trivialEnv gen1i sCachedRev 2018 2020 "p"
    sCachedRev [rec2019, rec2018] [] rfl

/-- C6 counterexample: with the 2019 row stored before the 2018 row, a
successful call returns `[2019-row, 2018-row]` — the requested range
read back in store order, *not* sorted ascending by year as the claim
states. -/
theorem readback_unsorted_cex :
    calculate_biodiversity_score trivialEnv gen1i sCachedRev 2018 2020 "p" =
      .ok (sCachedRev, [rec2019, rec2018], []) ∧
    [rec2019, rec2018].map (fun r => r.year) = [2019, 2018] ∧
    ¬ List.Pairwise (fun x y => x ≤ y)
        ([rec2019, rec2018].map (fun r => r.year)) := by
  refine ⟨rfl, rfl, ?_⟩
  intro h
  simp only [List.map_cons, List.map_nil] at h
  rw [List.pairwise_cons] at h
  have := h.1 rec2018.year (by simp)
  simp [rec2018, rec2019] at this

theorem geometry_empty_yearly_error (env : Env) (gen : Generator) (s : Store)
    (years : List Int) (p : String)
    (hgeom : get_project_geometry s p = []) :
    _calculate_yearly_index env gen s years p = .error .indexError := by
  unfold _calculate_yearly_index get_project_centroid
  rw [hgeom]
  rfl

/-- C9: amended unknown-project behavior — when the store holds no
geometry row for the project and at least one examined year is missing
(here the first year of a non-degenerate range),
`calculate_biodiversity_score` fails with IndexError (the centroid
lookup subscripts the empty geometry row list); the source defines no
ProjectNotFoundError. The failure happens inside
`_calculate_yearly_index`, before any staging or durable write, and the
error result carries no store. -/
theorem unknown_project_behavior (env : Env) (gen : Generator) (s : Store)
    (a b : Int) (p : String)
    (hgeom : get_project_geometry s p = [])
    (hbio : s.bioExists = true)
    (hmiss : countFor s p a = 0)
    (hab : a < b) :
    calculate_biodiversity_score env gen s a b p = .error .indexError := by
  have hml := missingYearsLoop_char s p (pyRange a b) hbio
  have hmem : a ∈ (pyRange a b).filter (fun y => decide (countFor s p y = 0)) := by
    apply List.mem_filter.mpr
    exact ⟨mem_pyRange.mpr ⟨le_refl a, hab⟩, by simp [hmiss]⟩
  have hne : 0 < ((pyRange a b).filter
      (fun y => decide (countFor s p y = 0))).length :=
    List.length_pos.mpr (List.ne_nil_of_mem hmem)
  unfold calculate_biodiversity_score
  rw [hml]
  simp only [ebind_ok]
  rw [if_pos hne, geometry_empty_yearly_error env gen s _ p hgeom]
  rfl

/-- C9 witness: the amended behavior at the spec's own example input
`compute_score("does-not-exist", 2015, 2016)` on a store without that
project. -/
theorem unknown_project_behavior_witness :
    calculate_biodiversity_score trivialEnv gen1i sEmpty 2015 2016
      "does-not-exist" = .error .indexError :=
  unknown_project_behavior trivialEnv gen1i sEmpty 2015 2016 "does-not-exist"
    rfl rfl rfl (by decide)

/-- C9 counterexample: `compute_score("does-not-exist", 2015, 2016)`
fails with IndexError — not with the ProjectNotFoundError the claim
names (no such class exists in the source). -/
theorem unknown_project_index_error_cex :
    calculate_biodiversity_score trivialEnv gen1i sEmpty 2015 2016
      "does-not-exist" = .error .indexError ∧
    PyErr.indexError ≠ PyErr.projectNotFoundError := ⟨rfl, by decide⟩

theorem round2_1000 : round2 1000 = 1000 := by norm_num [round2, round_eq]

theorem agg_run (v1 v2 v3 : ℚ) :
    calculate_biodiversity_score (envV v1 v2 v3) gen3i sP 2020 2021 "p" =
      .ok (aggStore v1 v2 v3, [aggRecord v1 v2 v3], aggTrace) := by
  have hpr : pyRange 2020 2021 = [2020] := by decide
  simp [calculate_biodiversity_score, hpr, missingYearsLoop,
    check_if_project_exists_for_year, sP, countFor, _calculate_yearly_index,
    get_project_centroid, get_project_geometry, pyIndex, pyLookup, mapE,
    generate_composite_index_df, zonal_mean_index, generate_index, envV,
    gen3i, cfgOf, write_score_to_temptable, scoreTable, firstKeys,
    isortByName, insertByName, groupRecord, get_or_create_bioindicator_table,
    upsert_project_record, upsertRow, get_project_scores, round2_1000,
    aggStore, aggRecord, aggTrace]
  constructor <;> ring_nf

/-- C4: amended aggregation formula. For a computed year with indicator
ZonalValues `v1, v2, v3` and planar area 1000, the persisted `value` is
`round2` of the mean of the *individually pre-rounded* values — the
dataframe is rounded to 2 decimals before the SQL AVG — and the
persisted `score` is `round2 (value * area)`; the claim's concrete
instance `[0.2, 0.4, 0.6]`, area 1000 still yields value 0.4 and score
400 (pre-rounding is the identity on those inputs). -/
theorem aggregation_formula (v1 v2 v3 : ℚ) :
    calculate_biodiversity_score (envV v1 v2 v3) gen3i sP 2020 2021 "p" =
      .ok (aggStore v1 v2 v3, [aggRecord v1 v2 v3], aggTrace) ∧
    aggRecord (1/5) (2/5) (3/5) =
      { year := 2020, project_name := "p", value := 2/5, area := 1000,
        score := 400 } :=
  ⟨agg_run v1 v2 v3, by norm_num [aggRecord, round2, round_eq]⟩

/-- C4 counterexample: for ZonalValues `[0.004, 0.004, 0.01]` and area
1000 the pipeline stores value 0 (the values are rounded to
`[0, 0, 0.01]` *before* averaging and `round2 (0.01/3) = 0`), whereas
the claim's formula — the raw mean rounded to 2 decimals — gives
`round2 (0.018/3) = 0.01 ≠ 0`. -/
theorem aggregation_double_rounding_cex :
    calculate_biodiversity_score (envV (1/250) (1/250) (1/100)) gen3i sP
        2020 2021 "p" =
      .ok (aggStore (1/250) (1/250) (1/100),
           [{ year := 2020, project_name := "p", value := 0, area := 1000,
              score := 0 }],
           aggTrace) ∧
    round2 ((1/250 + 1/250 + 1/100) / 3) = 1/100 ∧
    (0 : ℚ) ≠ 1/100 := by
  refine ⟨?_, by norm_num [round2, round_eq], by norm_num⟩
  have h := agg_run (1/250) (1/250) (1/100)
  have hr : aggRecord (1/250) (1/250) (1/100) =
      { year := 2020, project_name := "p", value := 0, area := 1000,
        score := 0 } := by
    norm_num [aggRecord, round2, round_eq]
  rw [h, hr]

theorem generate_index_ok {cfg : IndexConfig} {roi : String} {year : Int}
    {d : Dataset} (h : generate_index cfg roi year = .ok d) :
    d = { config := cfg, roi := roi, year := year } := by
  unfold generate_index at h
  split at h
  all_goals simp_all

theorem zonal_ok_trace {env : Env} {gen : Generator} {roi : String}
    {k : String} {y : Int} {pr : ℚ × List Dataset}
    (h : zonal_mean_index env gen roi k y = .ok pr) :
    pr.2.map (fun d => d.year) = [y] := by
  unfold zonal_mean_index at h
  cases hc : pyLookup gen.indices k with
  | error e => rw [hc] at h; simp at h
  | ok cfg =>
    rw [hc] at h
    simp only [ebind_ok] at h
    cases hg : generate_index cfg roi y with
    | error e => rw [hg] at h; simp at h
    | ok d =>
      rw [hg] at h
      simp only [ebind_ok] at h
      cases hr : env.reduce d with
      | error e => rw [hr] at h; simp at h
      | ok out =>
        rw [hr] at h
        simp only [ebind_ok, epure_eq_ok, Except.ok.injEq] at h
        rw [← h]
        simp [generate_index_ok hg]

theorem mapE_zonal_trace (env : Env) (gen : Generator) (roi : String) (y : Int) :
    ∀ (keys : List String) (vals : List (ℚ × List Dataset)),
    mapE (fun k => zonal_mean_index env gen roi k y) keys = .ok vals →
    ((vals.map (fun v => v.2)).flatten.map (fun d => d.year) =
      List.replicate keys.length y) ∧ vals.length = keys.length := by
  intro keys
  induction keys with
  | nil =>
    intro vals h
    cases h
    simp
  | cons k ks ih =>
    intro vals h
    obtain ⟨yv, ys', hk, hks, rfl⟩ := mapE_ok_cons h
    obtain ⟨h1, h2⟩ := ih ys' hks
    refine ⟨?_, by simp [h2]⟩
    simp only [List.map_cons, List.flatten_cons, List.map_append, h1,
      zonal_ok_trace hk, List.length_cons, List.replicate_succ]
    rfl

theorem df_ok_spec {env : Env} {gen : Generator} {roi : String} {y : Int}
    {keys : List String} {rows : List IndexRow} {tds : List Dataset}
    (h : generate_composite_index_df env gen roi y keys = .ok (rows, tds)) :
    rows.map (fun r => (r.year, r.project_name, r.area)) =
      List.replicate keys.length ((y, "", env.area roi) : GKey) ∧
    tds.map (fun d => d.year) = List.replicate keys.length y := by
  unfold generate_composite_index_df at h
  cases hm : mapE (fun k => zonal_mean_index env gen roi k y) keys with
  | error e => rw [hm] at h; simp at h
  | ok vals =>
    rw [hm] at h
    simp only [ebind_ok, epure_eq_ok, Except.ok.injEq, Prod.mk.injEq] at h
    obtain ⟨hrows, htds⟩ := h
    obtain ⟨htr, hlen⟩ := mapE_zonal_trace env gen roi y keys vals hm
    constructor
    · rw [← hrows, List.map_map]
      have hz : (keys.zip (vals.map (fun v => v.1))).length = keys.length := by
        simp [List.length_zip, hlen]
      rw [show ((fun r : IndexRow => (r.year, r.project_name, r.area)) ∘
          (fun kv : String × ℚ =>
            ({ metric := kv.1, year := y, project_name := "", value := kv.2,
               area := env.area roi } : IndexRow))) =
          (fun kv : String × ℚ => ((y, "", env.area roi) : GKey)) from rfl]
      rw [List.map_const', hz]
    · rw [← htds]
      exact htr

theorem mapE_df_spec (env : Env) (gen : Generator) (roi : String)
    (keys : List String) :
    ∀ (years : List Int) (dfs : List (List IndexRow × List Dataset)),
    mapE (fun y => generate_composite_index_df env gen roi y keys) years =
      .ok dfs →
    ((dfs.map (fun d => d.1)).flatten.map
        (fun r => (r.year, r.project_name, r.area)) =
      years.flatMap (fun y =>
        List.replicate keys.length ((y, "", env.area roi) : GKey))) ∧
    ((dfs.map (fun d => d.2)).flatten.map (fun d => d.year) =
      years.flatMap (fun y => List.replicate keys.length y)) := by
  intro years
  induction years with
  | nil =>
    intro dfs h
    cases h
    simp
  | cons y ys ih =>
    intro dfs h
    obtain ⟨d0, rest, hd0, hrest, rfl⟩ := mapE_ok_cons h
    obtain ⟨hA, hB⟩ := ih rest hrest
    obtain ⟨h1, h2⟩ := df_ok_spec (show generate_composite_index_df env gen
      roi y keys = .ok (d0.1, d0.2) from by rw [← hd0])
    constructor
    · simp only [List.map_cons, List.flatten_cons, List.map_append, h1, hA,
        List.flatMap_cons]
    · simp only [List.map_cons, List.flatten_cons, List.map_append, h2, hB,
        List.flatMap_cons]

theorem yearly_ok_spec {env : Env} {gen : Generator} {s : Store}
    {years : List Int} {p : String} {rows : List IndexRow}
    {tds : List Dataset}
    (h : _calculate_yearly_index env gen s years p = .ok (rows, tds)) :
    ∃ A : ℚ, rows.map (fun r => (r.year, r.project_name, r.area)) =
      years.flatMap (fun y =>
        List.replicate gen.indices.length ((y, p, A) : GKey)) ∧
    tds.map (fun d => d.year) =
      years.flatMap (fun y => List.replicate gen.indices.length y) := by
  unfold _calculate_yearly_index at h
  cases hc : get_project_centroid env s p with
  | error e => rw [hc] at h; simp at h
  | ok ctr =>
    rw [hc] at h
    simp only [ebind_ok] at h
    cases hg : pyIndex (get_project_geometry s p) 0 with
    | error e => rw [hg] at h; simp at h
    | ok g0 =>
      rw [hg] at h
      simp only [ebind_ok] at h
      cases hm : mapE (fun year => generate_composite_index_df env gen
          (env.mkRoi (env.extractPolygon g0)) year
          (gen.indices.map (fun q => q.1))) years with
      | error e => rw [hm] at h; simp at h
      | ok dfs =>
        rw [hm] at h
        simp only [ebind_ok, epure_eq_ok, Except.ok.injEq, Prod.mk.injEq] at h
        obtain ⟨hrows, htds⟩ := h
        obtain ⟨hA, hB⟩ := mapE_df_spec env gen
          (env.mkRoi (env.extractPolygon g0))
          (gen.indices.map (fun q => q.1)) years dfs hm
        refine ⟨round2 (env.area (env.mkRoi (env.extractPolygon g0))), ?_, ?_⟩
        · rw [← hrows, List.map_map]
          rw [show ((fun r : IndexRow => (r.year, r.project_name, r.area)) ∘
              (fun r : IndexRow =>
                { metric := r.metric, year := r.year, project_name := p,
                  value := round2 r.value, area := round2 r.area })) =
              ((fun k : GKey => (k.1, p, round2 k.2.2)) ∘
               (fun r : IndexRow => (r.year, r.project_name, r.area))) from rfl]
          rw [← List.map_map, hA, List.map_flatMap]
          simp only [List.map_replicate, List.length_map]
        · rw [← htds, hB]
          simp only [List.length_map]

theorem filter_replicate_ne (x : GKey) :
    ∀ n, (List.replicate n x).filter (fun k2 => decide (k2 ≠ x)) = [] := by
  intro n
  induction n with
  | zero => rfl
  | succ m ih => simp [List.replicate_succ, ih]

theorem filter_ne_of_all {l : List GKey} {x : GKey} (h : ∀ z ∈ l, z ≠ x) :
    l.filter (fun k2 => decide (k2 ≠ x)) = l := by
  apply List.filter_eq_self.mpr
  intro a ha
  simpa using h a ha

theorem firstKeys_blocks (p : String) (A : ℚ) (k : Nat) (hk : 0 < k) :
    ∀ years : List Int, years.Nodup →
    firstKeys (years.flatMap (fun y => List.replicate k ((y, p, A) : GKey))) =
      years.map (fun y => ((y, p, A) : GKey)) := by
  intro years
  induction years with
  | nil =>
    intro _
    simp [firstKeys]
  | cons y ys ih =>
    intro hnd
    obtain ⟨hy, hys⟩ := List.nodup_cons.mp hnd
    obtain ⟨m, rfl⟩ : ∃ m, k = m + 1 := ⟨k - 1, by omega⟩
    rw [List.flatMap_cons, List.replicate_succ, List.cons_append]
    rw [firstKeys]
    rw [List.filter_append, filter_replicate_ne, List.nil_append]
    rw [filter_ne_of_all ?_]
    · rw [ih hys, List.map_cons]
    · intro z hz
      obtain ⟨y', hy', hz'⟩ := List.mem_flatMap.mp hz
      have : z = (y', p, A) := (List.mem_replicate.mp hz').2
      subst this
      intro hcon
      apply hy
      have : y' = y := by
        have := congrArg (fun q : GKey => q.1) hcon
        simpa using this
      rw [← this]
      exact hy'

theorem insertByName_all_eq {x : GKey} :
    ∀ {acc : List GKey}, (∀ z ∈ acc, z.2.1 = x.2.1) →
    insertByName x acc = acc ++ [x] := by
  intro acc
  induction acc with
  | nil => intro _; rfl
  | cons z zs ih =>
    intro h
    unfold insertByName
    rw [if_neg ?_]
    · rw [ih (fun w hw => h w (List.mem_cons_of_mem z hw))]
      rw [List.cons_append]
    · rw [h z (List.mem_cons_self z zs)]
      exact lt_irrefl _

theorem foldl_insert_all_eq (p : String) :
    ∀ (l acc : List GKey), (∀ z ∈ l, z.2.1 = p) → (∀ z ∈ acc, z.2.1 = p) →
    l.foldl (fun acc x => insertByName x acc) acc = acc ++ l := by
  intro l
  induction l with
  | nil => intro acc _ _; simp
  | cons x xs ih =>
    intro acc hl hacc
    rw [List.foldl_cons]
    rw [insertByName_all_eq (fun z hz => by
      rw [hacc z hz, hl x (List.mem_cons_self x xs)])]
    rw [ih (acc ++ [x]) (fun z hz => hl z (List.mem_cons_of_mem x hz))
      (fun z hz => ?_)]
    · simp
    · rcases List.mem_append.mp hz with h1 | h2
      · exact hacc z h1
      · rw [List.mem_singleton.mp h2]
        exact hl x (List.mem_cons_self x xs)

theorem isortByName_all_eq {l : List GKey} {p : String}
    (h : ∀ z ∈ l, z.2.1 = p) : isortByName l = l := by
  unfold isortByName
  rw [foldl_insert_all_eq p l [] h (by intro z hz; cases hz)]
  rfl

theorem scoreTable_keys {df : List IndexRow} {years : List Int} {p : String}
    {A : ℚ} {k : Nat} (hk : 0 < k) (hnd : years.Nodup)
    (hdf : df.map (fun r => (r.year, r.project_name, r.area)) =
      years.flatMap (fun y => List.replicate k ((y, p, A) : GKey))) :
    (scoreTable df).map (fun r => (r.year, r.project_name)) =
      years.map (fun y => (y, p)) := by
  unfold scoreTable
  rw [hdf, firstKeys_blocks p A k hk years hnd]
  rw [isortByName_all_eq (p := p) (fun z hz => by
    obtain ⟨y', _, rfl⟩ := List.mem_map.mp hz
    rfl)]
  rw [List.map_map, List.map_map]
  rfl

theorem upsert_foldl_append :
    ∀ (temp bio : List ScoreRecord),
    (∀ r ∈ temp, ∀ bR ∈ bio,
      ¬(bR.year = r.year ∧ bR.project_name = r.project_name)) →
    List.Pairwise (fun r1 r2 =>
      ¬(r2.year = r1.year ∧ r2.project_name = r1.project_name)) temp →
    temp.foldl upsertRow bio = bio ++ temp := by
  intro temp
  induction temp with
  | nil => intro bio _ _; simp
  | cons r rest ih =>
    intro bio hdisj hpw
    obtain ⟨hhead, htail⟩ := List.pairwise_cons.mp hpw
    rw [List.foldl_cons]
    have hany : bio.any (fun b =>
        decide (b.year = r.year ∧ b.project_name = r.project_name)) = false := by
      rw [List.any_eq_false]
      intro b hb
      simpa using hdisj r (List.mem_cons_self r rest) b hb
    have hrow : upsertRow bio r = bio ++ [r] := by
      unfold upsertRow
      rw [hany, if_neg (by simp)]
    rw [hrow]
    rw [ih (bio ++ [r]) ?_ htail]
    · simp
    · intro r2 hr2 bR hbR
      rcases List.mem_append.mp hbR with h1 | h2
      · exact hdisj r2 (List.mem_cons_of_mem r hr2) bR h1
      · rw [List.mem_singleton.mp h2]
        intro hcon
        exact hhead r2 hr2 ⟨hcon.1.symm, hcon.2.symm⟩

/-- C3: gap-only recomputation. With `years` the examined years having
no record (the list the existence-check loop builds): (i) the remote
evaluator is invoked exactly once per configured indicator for each year
of `years` and for no other year — the trace of remote reductions maps
year-wise to `years` with one entry per indicator; (ii) an immediately
repeated identical call returns the identical store and identical rows
and performs zero remote evaluations (empty trace), because every
examined year now has a record. -/
theorem gap_only_recomputation (env : Env) (gen : Generator) (s : Store)
    (a b : Int) (p : String) (s' : Store) (scores : List ScoreRecord)
    (tr : List Dataset) (years : List Int)
    (hk : 0 < gen.indices.length)
    (hy : missingYearsLoop s p (pyRange a b) = .ok years)
    (h : calculate_biodiversity_score env gen s a b p = .ok (s', scores, tr)) :
    tr.map (fun d => d.year) =
      years.flatMap (fun y => List.replicate gen.indices.length y) ∧
    calculate_biodiversity_score env gen s' a b p = .ok (s', scores, []) := by
  obtain ⟨years0, hy0, hgs, hcase⟩ := run_ok_inv h
  rw [hy] at hy0
  injection hy0 with hyy
  subst hyy
  rcases hcase with ⟨hnil, hss, htrn⟩ | ⟨hne, df, hdf, hup⟩
  · subst hnil; subst htrn
    refine ⟨by simp, ?_⟩
    rw [hss] at hgs ⊢
    rw [run_skip env gen s a b p hy, hgs]
    rfl
  · -- evaluation branch
    have hbio : s.bioExists = true := missingYearsLoop_ne_nil_bioExists hy hne
    have hchar : years =
        (pyRange a b).filter (fun y => decide (countFor s p y = 0)) := by
      have h2 := missingYearsLoop_char s p (pyRange a b) hbio
      rw [hy] at h2
      simpa using h2
    have hndy : years.Nodup := by
      rw [hchar]
      exact (pyRange_nodup a b).filter _
    obtain ⟨A, hkeys, htr⟩ := yearly_ok_spec hdf
    have hTmap : (scoreTable df).map (fun r => (r.year, r.project_name)) =
        years.map (fun y => (y, p)) :=
      scoreTable_keys hk hndy hkeys
    have hmemT : ∀ r2 ∈ scoreTable df,
        r2.year ∈ years ∧ r2.project_name = p := by
      intro r2 hr2
      have : (r2.year, r2.project_name) ∈
          (scoreTable df).map (fun r => (r.year, r.project_name)) :=
        List.mem_map_of_mem _ hr2
      rw [hTmap] at this
      obtain ⟨y', hy', hpair⟩ := List.mem_map.mp this
      have h1 : r2.year = y' := by
        have := congrArg Prod.fst hpair
        simpa using this.symm
      have h2 : r2.project_name = p := by
        have := congrArg Prod.snd hpair
        simpa using this.symm
      rw [h1]
      exact ⟨hy', h2⟩
    have hcount0 : ∀ y ∈ years, countFor s p y = 0 := by
      intro y hy'
      rw [hchar] at hy'
      simpa using (List.mem_filter.mp hy').2
    have hdisj : ∀ r2 ∈ scoreTable df, ∀ bR ∈ s.bio,
        ¬(bR.year = r2.year ∧ bR.project_name = r2.project_name) := by
      intro r2 hr2 bR hbR hcon
      obtain ⟨hyin, hpn⟩ := hmemT r2 hr2
      have h0 : countFor s p r2.year = 0 := hcount0 r2.year hyin
      unfold countFor at h0
      rw [List.length_eq_zero, List.filter_eq_nil_iff] at h0
      exact h0 bR hbR (by simp [hcon.1, hcon.2, hpn])
    have hpairT : List.Pairwise (fun r1 r2 : ScoreRecord =>
        ¬(r2.year = r1.year ∧ r2.project_name = r1.project_name))
        (scoreTable df) := by
      have hyp : List.Pairwise (fun k1 k2 : Int × String => k1.1 ≠ k2.1)
          (years.map (fun y => (y, p))) := by
        refine List.Pairwise.map _ ?_ hndy
        intro y1 y2 hne12
        simpa using hne12
      rw [← hTmap] at hyp
      have := List.pairwise_map.mp hyp
      refine this.imp ?_
      intro r1 r2 hne12 hcon
      exact hne12 (by simpa using hcon.1.symm)
    have happend : (scoreTable df).foldl upsertRow s.bio =
        s.bio ++ scoreTable df :=
      upsert_foldl_append (scoreTable df) s.bio hdisj hpairT
    have hrun : upsert_project_record (get_or_create_bioindicator_table
        (write_score_to_temptable s df)) =
        .ok { s with tempExists := true,
                     temp := scoreTable df,
                     bio := s.bio ++ scoreTable df } := by
      unfold write_score_to_temptable get_or_create_bioindicator_table
        upsert_project_record
      simp only [hbio, if_true, happend]
    rw [hrun] at hup
    injection hup with hs'
    refine ⟨htr, ?_⟩
    have hbio' : s'.bioExists = true := by
      rw [← hs']
      exact hbio
    have hml2 : missingYearsLoop s' p (pyRange a b) = .ok [] := by
      rw [missingYearsLoop_char s' p (pyRange a b) hbio']
      congr 1
      rw [List.filter_eq_nil_iff]
      intro y hyR
      simp only [decide_eq_true_eq]
      have hbioeq : s'.bio = s.bio ++ scoreTable df := by
        rw [← hs']
      have hcnt : countFor s' p y =
          countFor s p y + ((scoreTable df).filter (fun r =>
            decide (r.year = y ∧ r.project_name = p))).length := by
        unfold countFor
        rw [hbioeq, List.filter_append, List.length_append]
      by_cases hmem : y ∈ years
      · have : (y, p) ∈ (scoreTable df).map
            (fun r => (r.year, r.project_name)) := by
          rw [hTmap]
          exact List.mem_map_of_mem _ hmem
        obtain ⟨r2, hr2, hkey⟩ := List.mem_map.mp this
        have hr2y : r2.year = y := by
          have := congrArg Prod.fst hkey
          simpa using this
        have hr2p : r2.project_name = p := by
          have := congrArg Prod.snd hkey
          simpa using this
        have hr2f : r2 ∈ (scoreTable df).filter (fun r =>
            decide (r.year = y ∧ r.project_name = p)) := by
          rw [List.mem_filter]
          exact ⟨hr2, by simp [hr2y, hr2p]⟩
        have hlen : 0 < ((scoreTable df).filter (fun r =>
            decide (r.year = y ∧ r.project_name = p))).length :=
          List.length_pos.mpr (List.ne_nil_of_mem hr2f)
        omega
      · have : ¬ countFor s p y = 0 := by
          intro h0
          apply hmem
          rw [hchar]
          rw [List.mem_filter]
          exact ⟨hyR, by simp [h0]⟩
        omega
    rw [run_skip env gen s' a b p hml2, hgs]
    rfl

theorem w_run :
    calculate_biodiversity_score (envV 0 0 0) gen1i sP 2018 2019 "p" =
      .ok (wStore, [wRec], [wD]) := by
  have hpr : pyRange 2018 2019 = [2018] := by decide
  simp [calculate_biodiversity_score, hpr, missingYearsLoop,
    check_if_project_exists_for_year, sP, countFor, _calculate_yearly_index,
    get_project_centroid, get_project_geometry, pyIndex, pyLookup, mapE,
    generate_composite_index_df, zonal_mean_index, generate_index, envV,
    gen1i, cfgOf, write_score_to_temptable, scoreTable, firstKeys,
    isortByName, insertByName, groupRecord, get_or_create_bioindicator_table,
    upsert_project_record, upsertRow, get_project_scores, round2_1000,
    wStore, wRec, wD]
  norm_num [round2, round_eq]

/-- C3 witness: a concrete run with a single indicator and year 2018
missing — the trace holds exactly one dataset for 2018, and the repeated
call returns the identical result with an empty trace. -/
theorem gap_only_recomputation_witness :
    [wD].map (fun d => d.year) =
      [(2018 : ℤ)].flatMap (fun y =>
        List.replicate gen1i.indices.length y) ∧
    calculate_biodiversity_score (envV 0 0 0) gen1i wStore 2018 2019 "p" =
      .ok (wStore, [wRec], []) :=
  gap_only_recomputation (envV 0 0 0) gen1i sP 2018 2019 "p" wStore [wRec]
    [wD] [2018] (by decide) rfl w_run
